import Mathlib

/-!
Verification of the DataDash backend (real-estate projects, investment
schemes, admin accounts) against its specification.

The Python services build SQL dynamically but all decisions are made in
Python before a single UPDATE/INSERT statement runs, so the embedding
models the database as a list of typed rows and each service method as a
function from (rows, request, fresh id, clock) to (rows, outcome).  Python
ints are ℤ, DECIMAL/float columns are ℚ, timestamps and the clock are ℕ,
DATE columns are ℤ (day ordinal), JSONB columns are a structural `Json`
value (the json.dumps / driver-parse round trip is structural identity on
JSON-representable values, so the column stores the value itself).
-/

namespace DataDash

/-- Enum `ProjectStatus` of projectmodels.py (also the DDL check_status domain). -/
inductive ProjectStatus where
  | available
  | sold_out
  | coming_soon
deriving DecidableEq, Repr

/-- Enum `PropertyType` of projectmodels.py (also the DDL check_property_type domain). -/
inductive PropertyType where
  | commercial
  | residential
  | plot
  | land
  | mixed_use
deriving DecidableEq, Repr

/-- Enum `SchemeType` of schememodels.py (also the DDL check_scheme_type domain). -/
inductive SchemeType where
  | single_payment
  | installment
deriving DecidableEq, Repr

/-- The string a `SchemeType` row value holds, for comparison against the raw
string filter the routes pass through to the SQL `scheme_type = %s` condition. -/
def SchemeType.toStr : SchemeType → String
  | .single_payment => "single_payment"
  | .installment => "installment"

/-- The string a `ProjectStatus` row value holds (SQL `status = %s`). -/
def ProjectStatus.toStr : ProjectStatus → String
  | .available => "available"
  | .sold_out => "sold_out"
  | .coming_soon => "coming_soon"

/-- The string a `PropertyType` row value holds (SQL `property_type = %s`). -/
def PropertyType.toStr : PropertyType → String
  | .commercial => "commercial"
  | .residential => "residential"
  | .plot => "plot"
  | .land => "land"
  | .mixed_use => "mixed_use"

/-- A structural JSON value: what a JSONB column holds once the driver has
parsed it back, and what the pydantic Dict/List request fields carry. -/
inductive Json where
  | null
  | bool (b : Bool)
  | num (q : ℚ)
  | str (s : String)
  | arr (elems : List Json)
  | obj (fields : List (String × Json))
deriving Repr

/-- Python truthiness of a JSON-shaped value: None is handled by the callers
(Option), empty containers, empty strings, zero and false are falsy. -/
def Json.truthy : Json → Bool
  | .null => false
  | .bool b => b
  | .num q => q != 0
  | .str s => s != ""
  | .arr elems => !elems.isEmpty
  | .obj fields => !fields.isEmpty

/-- The value a JSONB column receives for a request field `x`:
`json.dumps(x) if x else None` followed by the driver parsing the stored text
back to a structural value.  A present-but-falsy value (empty dict or list)
is stored as SQL NULL. -/
def jsonColumnParam : Option Json → Option Json
  | none => none
  | some j => if j.truthy then some j else none

/-- The value the `website_url` column receives:
`str(request.website_url) if request.website_url else None` — a
present-but-empty string is stored as SQL NULL. -/
def strColumnParam : Option String → Option String
  | none => none
  | some s => if s = "" then none else some s

/-- A row of the `projects` table (database.py DDL). -/
structure ProjectRow where
  id : String
  title : String
  location : String
  description : Option String
  long_description : Option String
  website_url : Option String
  status : ProjectStatus
  base_price : ℚ
  property_type : PropertyType
  has_rental_income : Bool
  pricing_details : Option Json
  total_units : ℤ
  available_units : ℤ
  sold_units : ℤ
  reserved_units : ℤ
  rera_number : Option String
  building_permission : Option String
  quick_info : Option Json
  gallery_images : Option Json
  key_highlights : Option Json
  features : Option Json
  investment_highlights : Option Json
  amenities : Option Json
  created_at : Nat
  updated_at : Nat
  is_active : Bool
deriving Repr

/-- The `ProjectData` entity of projectmodels.py, as `_row_to_project_data`
produces it from a row. -/
structure ProjectData where
  id : String
  title : String
  location : String
  description : Option String
  long_description : Option String
  website_url : Option String
  status : ProjectStatus
  base_price : ℚ
  property_type : PropertyType
  has_rental_income : Bool
  pricing_details : Option Json
  total_units : ℤ
  available_units : ℤ
  sold_units : ℤ
  reserved_units : ℤ
  rera_number : Option String
  building_permission : Option String
  quick_info : Option Json
  gallery_images : Option Json
  key_highlights : Option Json
  features : Option Json
  investment_highlights : Option Json
  amenities : Option Json
  created_at : Nat
  updated_at : Nat
  is_active : Bool
deriving Repr

/-- `ProjectService._row_to_project_data`: a field-by-field copy (the id is
rendered as a string and base_price through float, both identities here). -/
def row_to_project_data (row : ProjectRow) : ProjectData :=
  { id := row.id
    title := row.title
    location := row.location
    description := row.description
    long_description := row.long_description
    website_url := row.website_url
    status := row.status
    base_price := row.base_price
    property_type := row.property_type
    has_rental_income := row.has_rental_income
    pricing_details := row.pricing_details
    total_units := row.total_units
    available_units := row.available_units
    sold_units := row.sold_units
    reserved_units := row.reserved_units
    rera_number := row.rera_number
    building_permission := row.building_permission
    quick_info := row.quick_info
    gallery_images := row.gallery_images
    key_highlights := row.key_highlights
    features := row.features
    investment_highlights := row.investment_highlights
    amenities := row.amenities
    created_at := row.created_at
    updated_at := row.updated_at
    is_active := row.is_active }

/-- `CreateProjectRequest` of projectmodels.py (defaults as declared there). -/
structure CreateProjectRequest where
  title : String
  location : String
  description : Option String := none
  long_description : Option String := none
  website_url : Option String := none
  status : ProjectStatus := .available
  base_price : ℚ
  property_type : PropertyType
  has_rental_income : Bool := false
  pricing_details : Option Json := none
  quick_info : Option Json := none
  gallery_images : Option Json := none
  key_highlights : Option Json := none
  features : Option Json := none
  investment_highlights : Option Json := none
  amenities : Option Json := none
  total_units : ℤ
  available_units : ℤ := 0
  sold_units : ℤ := 0
  reserved_units : ℤ := 0
  rera_number : Option String := none
  building_permission : Option String := none
deriving Repr

/-- The pydantic validation of `CreateProjectRequest`: the field validators
in declaration order, then `validate_model` (rental-income exclusion first,
then the unit-sum equation). -/
def CreateProjectRequest.validate (r : CreateProjectRequest) : Except String Unit :=
  if r.base_price ≤ 0 then .error "Base price must be greater than 0"
  else if r.total_units ≤ 0 then .error "Total units must be greater than 0"
  else if r.available_units < 0 then .error "Available units cannot be negative"
  else if r.sold_units < 0 then .error "Sold units cannot be negative"
  else if r.reserved_units < 0 then .error "Reserved units cannot be negative"
  else if (r.property_type = .plot ∨ r.property_type = .land) ∧ r.has_rental_income then
    .error "Plot and land properties cannot have rental income"
  else if r.total_units ≠ r.available_units + r.sold_units + r.reserved_units then
    .error "Total units must equal sum of available, sold, and reserved units"
  else .ok ()

/-- `UpdateProjectRequest` of projectmodels.py: every field optional, absent
means untouched. -/
structure UpdateProjectRequest where
  title : Option String := none
  location : Option String := none
  description : Option String := none
  long_description : Option String := none
  website_url : Option String := none
  status : Option ProjectStatus := none
  base_price : Option ℚ := none
  property_type : Option PropertyType := none
  has_rental_income : Option Bool := none
  pricing_details : Option Json := none
  quick_info : Option Json := none
  gallery_images : Option Json := none
  key_highlights : Option Json := none
  features : Option Json := none
  investment_highlights : Option Json := none
  amenities : Option Json := none
  total_units : Option ℤ := none
  available_units : Option ℤ := none
  sold_units : Option ℤ := none
  reserved_units : Option ℤ := none
  rera_number : Option String := none
  building_permission : Option String := none
  is_active : Option Bool := none
deriving Repr

/-- The pydantic field validators of `UpdateProjectRequest` (positivity and
non-negativity of the supplied numeric fields; no cross-field model
validator exists on the update request). -/
def UpdateProjectRequest.validate (r : UpdateProjectRequest) : Except String Unit :=
  if r.base_price.getD 1 ≤ 0 then .error "Base price must be greater than 0"
  else if r.total_units.getD 1 ≤ 0 then .error "Total units must be greater than 0"
  else if r.available_units.getD 0 < 0 then .error "Available units cannot be negative"
  else if r.sold_units.getD 0 < 0 then .error "Sold units cannot be negative"
  else if r.reserved_units.getD 0 < 0 then .error "Reserved units cannot be negative"
  else .ok ()

/-- Whether any updatable field is present in the request: the disjunction of
the `is not None` conditions that append to `update_fields` in
`ProjectService.update_project`. -/
def UpdateProjectRequest.hasUpdates (r : UpdateProjectRequest) : Bool :=
  r.title.isSome || r.location.isSome || r.description.isSome ||
  r.long_description.isSome || r.website_url.isSome || r.status.isSome ||
  r.base_price.isSome || r.property_type.isSome || r.has_rental_income.isSome ||
  r.pricing_details.isSome || r.quick_info.isSome || r.gallery_images.isSome ||
  r.key_highlights.isSome || r.features.isSome || r.investment_highlights.isSome ||
  r.amenities.isSome || r.rera_number.isSome || r.building_permission.isSome ||
  r.total_units.isSome || r.available_units.isSome || r.sold_units.isSome ||
  r.reserved_units.isSome || r.is_active.isSome

/-- The row the dynamic `UPDATE projects SET ...` statement produces from the
current row: every present field is assigned (with the same empty-to-NULL
coercions as creation for website_url and the JSON fields), absent fields
keep their stored value, and `updated_at = CURRENT_TIMESTAMP`. -/
def applyProjectUpdate (cur : ProjectRow) (r : UpdateProjectRequest) (now : Nat) : ProjectRow :=
  { cur with
    title := r.title.getD cur.title
    location := r.location.getD cur.location
    description := match r.description with
      | none => cur.description
      | some s => some s
    long_description := match r.long_description with
      | none => cur.long_description
      | some s => some s
    website_url := match r.website_url with
      | none => cur.website_url
      | some s => strColumnParam (some s)
    status := r.status.getD cur.status
    base_price := r.base_price.getD cur.base_price
    property_type := r.property_type.getD cur.property_type
    has_rental_income := r.has_rental_income.getD cur.has_rental_income
    pricing_details := match r.pricing_details with
      | none => cur.pricing_details
      | some j => jsonColumnParam (some j)
    quick_info := match r.quick_info with
      | none => cur.quick_info
      | some j => jsonColumnParam (some j)
    gallery_images := match r.gallery_images with
      | none => cur.gallery_images
      | some j => jsonColumnParam (some j)
    key_highlights := match r.key_highlights with
      | none => cur.key_highlights
      | some j => jsonColumnParam (some j)
    features := match r.features with
      | none => cur.features
      | some j => jsonColumnParam (some j)
    investment_highlights := match r.investment_highlights with
      | none => cur.investment_highlights
      | some j => jsonColumnParam (some j)
    amenities := match r.amenities with
      | none => cur.amenities
      | some j => jsonColumnParam (some j)
    rera_number := match r.rera_number with
      | none => cur.rera_number
      | some s => some s
    building_permission := match r.building_permission with
      | none => cur.building_permission
      | some s => some s
    total_units := r.total_units.getD cur.total_units
    available_units := r.available_units.getD cur.available_units
    sold_units := r.sold_units.getD cur.sold_units
    reserved_units := r.reserved_units.getD cur.reserved_units
    is_active := r.is_active.getD cur.is_active
    updated_at := now }

/-- Outcome of an update-style service call: the Python method returns None
(mapped to 404 by the route), raises ValueError (mapped to 400) or returns
the updated entity. -/
inductive UpdateResult (α : Type) where
  | notFound
  | err (msg : String)
  | ok (data : α)
deriving Repr

namespace ProjectService

/-- `ProjectService.create_project` (the service body alone): the unit-sum
check, the rental-income check, then the INSERT with the column coercions of
the parameter tuple.  `newId` is the UUID the database generates, `now` the
CURRENT_TIMESTAMP defaults; `is_active` takes its DDL default TRUE (the
INSERT does not set it). -/
def create_project (db : List ProjectRow) (req : CreateProjectRequest)
    (newId : String) (now : Nat) : List ProjectRow × Except String ProjectData :=
  if req.total_units ≠ req.available_units + req.sold_units + req.reserved_units then
    (db, .error "Total units must equal sum of available, sold, and reserved units")
  else if (req.property_type = .plot ∨ req.property_type = .land) ∧ req.has_rental_income then
    (db, .error "Plot and land properties cannot have rental income")
  else
    let row : ProjectRow :=
      { id := newId
        title := req.title
        location := req.location
        description := req.description
        long_description := req.long_description
        website_url := strColumnParam req.website_url
        status := req.status
        base_price := req.base_price
        property_type := req.property_type
        has_rental_income := req.has_rental_income
        pricing_details := jsonColumnParam req.pricing_details
        total_units := req.total_units
        available_units := req.available_units
        sold_units := req.sold_units
        reserved_units := req.reserved_units
        rera_number := req.rera_number
        building_permission := req.building_permission
        quick_info := jsonColumnParam req.quick_info
        gallery_images := jsonColumnParam req.gallery_images
        key_highlights := jsonColumnParam req.key_highlights
        features := jsonColumnParam req.features
        investment_highlights := jsonColumnParam req.investment_highlights
        amenities := jsonColumnParam req.amenities
        created_at := now
        updated_at := now
        is_active := true }
    (db ++ [row], .ok (row_to_project_data row))

/-- The POST /projects/ pipeline below the route: pydantic validation of the
body, then the service. -/
def create_project_endpoint (db : List ProjectRow) (req : CreateProjectRequest)
    (newId : String) (now : Nat) : List ProjectRow × Except String ProjectData :=
  match req.validate with
  | .error e => (db, .error e)
  | .ok _ => create_project db req newId now

/-- `ProjectService.update_project`: existence check (`SELECT id`, no
is_active condition), per-field collection with the request-only
rental-income check, the effective-value unit-sum check when any unit field
is present, the no-op read-back when nothing is present, otherwise the
dynamic UPDATE. -/
def update_project (db : List ProjectRow) (project_id : String)
    (req : UpdateProjectRequest) (now : Nat) : List ProjectRow × UpdateResult ProjectData :=
  match db.find? (fun r => r.id == project_id) with
  | none => (db, .notFound)
  | some cur =>
    -- the source guards with `request.property_type in ['plot', 'land'] and
    -- request.has_rental_income`, reading both from the request alone
    if req.has_rental_income.isSome ∧
        (req.property_type = some .plot ∨ req.property_type = some .land) ∧
        req.has_rental_income = some true then
      (db, .err "Plot and land properties cannot have rental income")
    else if (req.total_units.isSome ∨ req.available_units.isSome ∨
        req.sold_units.isSome ∨ req.reserved_units.isSome) ∧
        req.total_units.getD cur.total_units ≠
          req.available_units.getD cur.available_units +
            req.sold_units.getD cur.sold_units +
            req.reserved_units.getD cur.reserved_units then
      (db, .err "Total units must equal sum of available, sold, and reserved units")
    else if !req.hasUpdates then
      (db, .ok (row_to_project_data cur))
    else
      let newRow := applyProjectUpdate cur req now
      (db.map (fun r => if r.id == project_id then newRow else r),
        .ok (row_to_project_data newRow))

/-- The PUT /projects/{id} pipeline below the route: pydantic validation of
the body, then the service. -/
def update_project_endpoint (db : List ProjectRow) (project_id : String)
    (req : UpdateProjectRequest) (now : Nat) : List ProjectRow × UpdateResult ProjectData :=
  match req.validate with
  | .error e => (db, .err e)
  | .ok _ => update_project db project_id req now

/-- `ProjectService.get_project_by_id`: single active row by id. -/
def get_project_by_id (db : List ProjectRow) (project_id : String) : Option ProjectData :=
  match db.find? (fun r => r.id == project_id && r.is_active) with
  | none => none
  | some row => some (row_to_project_data row)

end ProjectService

/-- Python truthiness of an optional string query parameter: the services
guard string filters with `if param:` so a present-but-empty string behaves
like an absent one. -/
def strProvided : Option String → Bool
  | none => false
  | some s => s != ""

/-- Stable insertion step for `ORDER BY key DESC`: an element moves ahead of
exactly the elements with a strictly smaller key, so rows with equal keys
keep their relative order. -/
def insertByGt (key : α → Nat) (x : α) : List α → List α
  | [] => [x]
  | y :: ys => if key y < key x then x :: y :: ys else y :: insertByGt key x ys

/-- Stable sort by a ℕ key, descending: the deterministic reading of the
`ORDER BY created_at DESC` clauses. -/
def sortByKeyDesc (key : α → Nat) : List α → List α
  | [] => []
  | x :: xs => insertByGt key x (sortByKeyDesc key xs)

/-- The WHERE clause of `ProjectService.list_projects`: `is_active = true`
always, plus the filters that are provided (string filters under Python
truthiness, price bounds under `is not None`). -/
def projectMatches (property_type status_filter : Option String)
    (min_price max_price : Option ℚ) (r : ProjectRow) : Bool :=
  r.is_active &&
  (match property_type with
    | none => true
    | some pt => if pt = "" then true else r.property_type.toStr == pt) &&
  (match status_filter with
    | none => true
    | some sf => if sf = "" then true else r.status.toStr == sf) &&
  (match min_price with
    | none => true
    | some m => m ≤ r.base_price) &&
  (match max_price with
    | none => true
    | some m => r.base_price ≤ m)

/-- The filtered rows of `ProjectService.list_projects` in the stable order
(`ORDER BY created_at DESC`) before the LIMIT/OFFSET slice. -/
def projectQueryRows (db : List ProjectRow) (property_type status_filter : Option String)
    (min_price max_price : Option ℚ) : List ProjectRow :=
  sortByKeyDesc (fun r => r.created_at)
    (db.filter (projectMatches property_type status_filter min_price max_price))

namespace ProjectService

/-- `ProjectService.list_projects`: `offset = (page - 1) * limit`, the COUNT
under the WHERE clause, and the ordered page slice (`LIMIT %s OFFSET %s`). -/
def list_projects (db : List ProjectRow) (page limit : Nat)
    (property_type status_filter : Option String)
    (min_price max_price : Option ℚ) : List ProjectData × Nat :=
  let offset := (page - 1) * limit
  let filtered := db.filter (projectMatches property_type status_filter min_price max_price)
  let ordered := sortByKeyDesc (fun r => r.created_at) filtered
  ((((ordered.drop offset).take limit).map row_to_project_data), filtered.length)

end ProjectService

/-- The `ListProjectResponse` envelope of projectmodels.py. -/
structure ListProjectResponse where
  message : String
  page : Nat
  limit : Nat
  total_pages : Nat
  is_previous : Bool
  is_next : Bool
  total_projects : Nat
  projects : List ProjectData
deriving Repr

/-- Outcome of a route handler: a response body or an HTTPException with a
status code and detail message. -/
inductive HttpResult (α : Type) where
  | ok (body : α)
  | err (statusCode : Nat) (detail : String)
deriving Repr

/-- The guard `min_price is not None and max_price is not None and
min_price > max_price` of the GET /projects/ handler. -/
def priceConflict (min_price max_price : Option ℚ) : Bool :=
  match min_price, max_price with
  | some mn, some mx => decide (mx < mn)
  | _, _ => false

/-- The GET /projects/ handler `list_projects` of projectroutes.py: the
min/max price conflict check, the service call, and the pagination
envelope arithmetic (`total_pages = (total + limit - 1) // limit`,
`is_previous = page > 1`, `is_next = page < total_pages`). -/
def list_projects_route (db : List ProjectRow) (page limit : Nat)
    (property_type status_filter : Option String)
    (min_price max_price : Option ℚ) : HttpResult ListProjectResponse :=
  if priceConflict min_price max_price then
    .err 400 "Minimum price cannot be greater than maximum price"
  else
    let r := ProjectService.list_projects db page limit property_type status_filter
      min_price max_price
    .ok { message := "Projects retrieved successfully"
          page := page
          limit := limit
          total_pages := (r.2 + limit - 1) / limit
          is_previous := decide (1 < page)
          is_next := decide (page < (r.2 + limit - 1) / limit)
          total_projects := r.2
          projects := r.1 }

/-- The pagination contract of the GET /projects/ listing at given
parameters: the handler answers with an envelope whose total is the number
of filtered rows, whose total_pages is the ceiling division of the total by
the limit, whose previous/next flags are as specified, whose page slice is
the (page-1)*limit offset window of the filtered rows in the stable
creation-time-descending order, and all the pages together concatenate back
to exactly the filtered rows. -/
def PaginationSpec (db : List ProjectRow) (page limit : Nat)
    (pt sf : Option String) (minp maxp : Option ℚ) : Prop :=
  ∃ env, list_projects_route db page limit pt sf minp maxp = HttpResult.ok env
    ∧ env.total_projects = (projectQueryRows db pt sf minp maxp).length
    ∧ env.total_pages = env.total_projects ⌈/⌉ limit
    ∧ env.is_previous = decide (1 < page)
    ∧ env.is_next = decide (page < env.total_pages)
    ∧ env.projects = (((projectQueryRows db pt sf minp maxp).drop ((page - 1) * limit)).take
        limit).map row_to_project_data
    ∧ (List.range env.total_pages).flatMap
        (fun i => ((projectQueryRows db pt sf minp maxp).drop (i * limit)).take limit)
        = projectQueryRows db pt sf minp maxp

/-- A row of the `investment_schemes` table (database.py DDL).  DATE columns
are day ordinals in ℤ. -/
structure SchemeRow where
  id : String
  project_id : String
  scheme_type : SchemeType
  scheme_name : String
  area_sqft : ℤ
  booking_advance : Option ℚ
  balance_payment_days : Option ℤ
  total_installments : Option ℤ
  monthly_installment_amount : Option ℚ
  rental_start_month : Option ℤ
  start_date : ℤ
  end_date : Option ℤ
  is_active : Bool
  created_at : Nat
  updated_at : Nat
deriving Repr

/-- The `InvestmentSchemeData` entity of schememodels.py. -/
structure InvestmentSchemeData where
  id : String
  project_id : String
  scheme_type : SchemeType
  scheme_name : String
  area_sqft : ℤ
  booking_advance : Option ℚ
  balance_payment_days : Option ℤ
  total_installments : Option ℤ
  monthly_installment_amount : Option ℚ
  rental_start_month : Option ℤ
  start_date : ℤ
  end_date : Option ℤ
  is_active : Bool
  created_at : Nat
  updated_at : Nat
deriving Repr

/-- The coercion `float(column) if column else None` applied by
`_row_to_scheme_data` to booking_advance and monthly_installment_amount: a
stored NULL and a stored 0 both come out as None. -/
def falsyNumToNone : Option ℚ → Option ℚ
  | none => none
  | some q => if q = 0 then none else some q

/-- `InvestmentSchemeService._row_to_scheme_data`: a field-by-field copy
except for the Python-truthiness coercion on the two optional numeric
columns. -/
def row_to_scheme_data (row : SchemeRow) : InvestmentSchemeData :=
  { id := row.id
    project_id := row.project_id
    scheme_type := row.scheme_type
    scheme_name := row.scheme_name
    area_sqft := row.area_sqft
    booking_advance := falsyNumToNone row.booking_advance
    balance_payment_days := row.balance_payment_days
    total_installments := row.total_installments
    monthly_installment_amount := falsyNumToNone row.monthly_installment_amount
    rental_start_month := row.rental_start_month
    start_date := row.start_date
    end_date := row.end_date
    is_active := row.is_active
    created_at := row.created_at
    updated_at := row.updated_at }

/-- `CreateInvestmentSchemeRequest` of schememodels.py (defaults as
declared there). -/
structure CreateInvestmentSchemeRequest where
  project_id : String
  scheme_type : SchemeType
  scheme_name : String
  area_sqft : ℤ
  booking_advance : Option ℚ := none
  balance_payment_days : Option ℤ := none
  total_installments : Option ℤ := none
  monthly_installment_amount : Option ℚ := none
  rental_start_month : Option ℤ := none
  start_date : ℤ
  end_date : Option ℤ := none
  is_active : Bool := true
deriving Repr

/-- The pydantic validation of `CreateInvestmentSchemeRequest`: the field
validators in declaration order, then `validate_scheme_fields` (the
scheme-type exclusivity checks on the installment fields, then the date
ordering).  Nothing requires balance_payment_days to be present for a
single_payment scheme. -/
def CreateInvestmentSchemeRequest.validate
    (r : CreateInvestmentSchemeRequest) : Except String Unit :=
  if r.area_sqft ≤ 0 then .error "Area square feet must be greater than 0"
  else if r.booking_advance.getD 0 < 0 then .error "Booking advance cannot be negative"
  else if r.balance_payment_days.getD 1 ≤ 0 then
    .error "Balance payment days must be greater than 0"
  else if r.total_installments.getD 1 ≤ 0 then
    .error "Total installments must be greater than 0"
  else if r.monthly_installment_amount.getD 1 ≤ 0 then
    .error "Monthly installment amount must be greater than 0"
  else if r.rental_start_month.getD 1 ≤ 0 then
    .error "Rental start month must be greater than 0"
  else if r.scheme_type = .single_payment ∧ r.total_installments.isSome then
    .error "Single payment schemes cannot have total_installments"
  else if r.scheme_type = .single_payment ∧ r.monthly_installment_amount.isSome then
    .error "Single payment schemes cannot have monthly_installment_amount"
  else if r.scheme_type = .installment ∧
      (r.total_installments.isNone ∨ r.total_installments.getD 0 ≤ 0) then
    .error "Installment schemes must have valid total_installments"
  else if r.scheme_type = .installment ∧
      (r.monthly_installment_amount.isNone ∨ r.monthly_installment_amount.getD 0 ≤ 0) then
    .error "Installment schemes must have valid monthly_installment_amount"
  else if (match r.end_date with | none => false | some e => e ≤ r.start_date) then
    .error "End date must be after start date"
  else .ok ()

/-- `UpdateInvestmentSchemeRequest` of schememodels.py: every field optional. -/
structure UpdateInvestmentSchemeRequest where
  scheme_name : Option String := none
  area_sqft : Option ℤ := none
  booking_advance : Option ℚ := none
  balance_payment_days : Option ℤ := none
  total_installments : Option ℤ := none
  monthly_installment_amount : Option ℚ := none
  rental_start_month : Option ℤ := none
  start_date : Option ℤ := none
  end_date : Option ℤ := none
  is_active : Option Bool := none
deriving Repr

/-- The pydantic validation of `UpdateInvestmentSchemeRequest`: per-field
positivity and the date pair check — no scheme-type exclusivity rule exists
on the update request. -/
def UpdateInvestmentSchemeRequest.validate
    (r : UpdateInvestmentSchemeRequest) : Except String Unit :=
  if r.area_sqft.getD 1 ≤ 0 then .error "Area square feet must be greater than 0"
  else if r.booking_advance.getD 0 < 0 then .error "Booking advance cannot be negative"
  else if r.balance_payment_days.getD 1 ≤ 0 then
    .error "Balance payment days must be greater than 0"
  else if r.total_installments.getD 1 ≤ 0 then
    .error "Total installments must be greater than 0"
  else if r.monthly_installment_amount.getD 1 ≤ 0 then
    .error "Monthly installment amount must be greater than 0"
  else if r.rental_start_month.getD 1 ≤ 0 then
    .error "Rental start month must be greater than 0"
  else if (match r.start_date, r.end_date with
    | some s, some e => decide (e ≤ s)
    | _, _ => false) then
    .error "End date must be after start date"
  else .ok ()

/-- Whether any updatable field is present: the disjunction of the
`is not None` conditions of `InvestmentSchemeService.update_scheme`. -/
def UpdateInvestmentSchemeRequest.hasUpdates (r : UpdateInvestmentSchemeRequest) : Bool :=
  r.scheme_name.isSome || r.area_sqft.isSome || r.booking_advance.isSome ||
  r.balance_payment_days.isSome || r.total_installments.isSome ||
  r.monthly_installment_amount.isSome || r.rental_start_month.isSome ||
  r.start_date.isSome || r.end_date.isSome || r.is_active.isSome

/-- The row the dynamic `UPDATE investment_schemes SET ...` produces: every
present field assigned verbatim, `updated_at = CURRENT_TIMESTAMP`. -/
def applySchemeUpdate (cur : SchemeRow) (r : UpdateInvestmentSchemeRequest)
    (now : Nat) : SchemeRow :=
  { cur with
    scheme_name := r.scheme_name.getD cur.scheme_name
    area_sqft := r.area_sqft.getD cur.area_sqft
    booking_advance := match r.booking_advance with
      | none => cur.booking_advance
      | some q => some q
    balance_payment_days := match r.balance_payment_days with
      | none => cur.balance_payment_days
      | some n => some n
    total_installments := match r.total_installments with
      | none => cur.total_installments
      | some n => some n
    monthly_installment_amount := match r.monthly_installment_amount with
      | none => cur.monthly_installment_amount
      | some q => some q
    rental_start_month := match r.rental_start_month with
      | none => cur.rental_start_month
      | some n => some n
    start_date := r.start_date.getD cur.start_date
    end_date := match r.end_date with
      | none => cur.end_date
      | some e => some e
    is_active := r.is_active.getD cur.is_active
    updated_at := now }

/-- The live owning-project lookup both scheme writes perform:
`SELECT property_type, has_rental_income FROM projects WHERE id = %s AND
is_active = true`. -/
def findLiveProject (projects : List ProjectRow) (project_id : String) : Option ProjectRow :=
  projects.find? (fun p => p.id == project_id && p.is_active)

namespace InvestmentSchemeService

/-- `InvestmentSchemeService.create_scheme`: live project lookup, the
rental-start-month check against the current project, the scheme-type
specific field checks, then the INSERT (all request values stored verbatim,
including a zero booking_advance). -/
def create_scheme (projects : List ProjectRow) (schemes : List SchemeRow)
    (req : CreateInvestmentSchemeRequest) (newId : String) (now : Nat) :
    List SchemeRow × Except String InvestmentSchemeData :=
  match findLiveProject projects req.project_id with
  | none => (schemes, .error "Project not found or inactive")
  | some project =>
    if req.rental_start_month.isSome ∧ project.has_rental_income = false then
      (schemes, .error "Rental start month can only be set for projects with rental income")
    else if req.scheme_type = .single_payment ∧ req.total_installments.isSome then
      (schemes, .error "Single payment schemes cannot have installments")
    else if req.scheme_type = .single_payment ∧ req.monthly_installment_amount.isSome then
      (schemes, .error "Single payment schemes cannot have monthly installment amount")
    else if req.scheme_type = .installment ∧
        (req.total_installments.isNone ∨ req.total_installments.getD 0 ≤ 0) then
      (schemes, .error "Installment schemes must have valid total_installments")
    else if req.scheme_type = .installment ∧
        (req.monthly_installment_amount.isNone ∨ req.monthly_installment_amount.getD 0 ≤ 0) then
      (schemes, .error "Installment schemes must have valid monthly_installment_amount")
    else if req.scheme_type = .installment ∧ req.balance_payment_days.isSome then
      (schemes, .error "Installment schemes cannot have balance_payment_days")
    else
      let row : SchemeRow :=
        { id := newId
          project_id := req.project_id
          scheme_type := req.scheme_type
          scheme_name := req.scheme_name
          area_sqft := req.area_sqft
          booking_advance := req.booking_advance
          balance_payment_days := req.balance_payment_days
          total_installments := req.total_installments
          monthly_installment_amount := req.monthly_installment_amount
          rental_start_month := req.rental_start_month
          start_date := req.start_date
          end_date := req.end_date
          is_active := req.is_active
          created_at := now
          updated_at := now }
      (schemes ++ [row], .ok (row_to_scheme_data row))

/-- The POST /investment-schemes/ pipeline below the route: pydantic
validation of the body, then the service. -/
def create_scheme_endpoint (projects : List ProjectRow) (schemes : List SchemeRow)
    (req : CreateInvestmentSchemeRequest) (newId : String) (now : Nat) :
    List SchemeRow × Except String InvestmentSchemeData :=
  match req.validate with
  | .error e => (schemes, .error e)
  | .ok _ => create_scheme projects schemes req newId now

/-- `InvestmentSchemeService.update_scheme`: scheme existence check, a fresh
live owning-project lookup, the rental-start-month check against that live
project, then the dynamic UPDATE with no scheme-type exclusivity
validation of any kind. -/
def update_scheme (projects : List ProjectRow) (schemes : List SchemeRow)
    (scheme_id : String) (req : UpdateInvestmentSchemeRequest) (now : Nat) :
    List SchemeRow × UpdateResult InvestmentSchemeData :=
  match schemes.find? (fun s => s.id == scheme_id) with
  | none => (schemes, .notFound)
  | some cur =>
    match findLiveProject projects cur.project_id with
    | none => (schemes, .err "Associated project not found or inactive")
    | some project =>
      if req.rental_start_month.isSome ∧ project.has_rental_income = false then
        (schemes, .err "Rental start month can only be set for projects with rental income")
      else if !req.hasUpdates then
        (schemes, .ok (row_to_scheme_data cur))
      else
        let newRow := applySchemeUpdate cur req now
        (schemes.map (fun s => if s.id == scheme_id then newRow else s),
          .ok (row_to_scheme_data newRow))

/-- The PUT /investment-schemes/{id} pipeline below the route: pydantic
validation of the body, then the service. -/
def update_scheme_endpoint (projects : List ProjectRow) (schemes : List SchemeRow)
    (scheme_id : String) (req : UpdateInvestmentSchemeRequest) (now : Nat) :
    List SchemeRow × UpdateResult InvestmentSchemeData :=
  match req.validate with
  | .error e => (schemes, .err e)
  | .ok _ => update_scheme projects schemes scheme_id req now

/-- The WHERE clause of `InvestmentSchemeService.get_all_schemes`: string
filters under Python truthiness, and `is_active = true` by default unless an
explicit is_active filter is supplied. -/
def schemeMatches (project_id scheme_type : Option String) (is_active : Option Bool)
    (s : SchemeRow) : Bool :=
  (match project_id with
    | none => true
    | some pid => if pid = "" then true else s.project_id == pid) &&
  (match scheme_type with
    | none => true
    | some st => if st = "" then true else s.scheme_type.toStr == st) &&
  (match is_active with
    | none => s.is_active == true
    | some b => s.is_active == b)

/-- `InvestmentSchemeService.get_all_schemes`: the filtered rows in
`ORDER BY created_at DESC` order, sliced by LIMIT/OFFSET and mapped through
`_row_to_scheme_data`. -/
def get_all_schemes (schemes : List SchemeRow) (project_id scheme_type : Option String)
    (is_active : Option Bool) (limit offset : Nat) : List InvestmentSchemeData :=
  let ordered := sortByKeyDesc (fun s => s.created_at)
    (schemes.filter (schemeMatches project_id scheme_type is_active))
  ((ordered.drop offset).take limit).map row_to_scheme_data

end InvestmentSchemeService

/-- The `InvestmentSchemeListResponse` model of schememodels.py: all eight
fields are required (none has a default). -/
structure InvestmentSchemeListResponse where
  message : String
  page : Nat
  limit : Nat
  total_pages : Nat
  is_previous : Bool
  is_next : Bool
  total_schemes : Nat
  schemes : List InvestmentSchemeData
deriving Repr

/-- The keyword arguments a call site may pass when constructing an
`InvestmentSchemeListResponse`: pydantic accepts any subset by name (extra
names it does not declare are ignored under the default config) and then
validates that every required field was supplied. -/
structure SchemeListResponseKwargs where
  success : Option Bool := none
  message : Option String := none
  data : Option (List InvestmentSchemeData) := none
  page : Option Nat := none
  limit : Option Nat := none
  total_pages : Option Nat := none
  is_previous : Option Bool := none
  is_next : Option Bool := none
  total_schemes : Option Nat := none
  schemes : Option (List InvestmentSchemeData) := none

/-- pydantic construction of `InvestmentSchemeListResponse` from keyword
arguments: `success` and `data` are not fields of the model and are ignored;
a missing required field raises ValidationError. -/
def buildInvestmentSchemeListResponse (k : SchemeListResponseKwargs) :
    Except String InvestmentSchemeListResponse :=
  match k.message, k.page, k.limit, k.total_pages, k.is_previous, k.is_next,
      k.total_schemes, k.schemes with
  | some message, some page, some limit, some total_pages, some is_previous,
      some is_next, some total_schemes, some schemes =>
    .ok { message := message, page := page, limit := limit, total_pages := total_pages
          is_previous := is_previous, is_next := is_next
          total_schemes := total_schemes, schemes := schemes }
  | _, _, _, _, _, _, _, _ =>
    .error "validation errors for InvestmentSchemeListResponse: field required"

/-- The GET /investment-schemes/ handler `get_all_investment_schemes` of
schemeroutes.py: it calls the service, then constructs the declared
response model passing only `success`, `message` and `data`; the
construction raises a pydantic ValidationError (seven required fields are
missing), which the generic `except Exception` branch converts to a 500
HTTPException. -/
def get_all_investment_schemes_route (schemes : List SchemeRow)
    (project_id scheme_type : Option String) (is_active : Option Bool)
    (limit offset : Nat) : HttpResult InvestmentSchemeListResponse :=
  let data := InvestmentSchemeService.get_all_schemes schemes project_id scheme_type
    is_active limit offset
  match buildInvestmentSchemeListResponse
      { success := some true
        message := some "Investment schemes retrieved successfully"
        data := some data } with
  | .ok resp => .ok resp
  | .error e => .err 500 ("Failed to retrieve investment schemes: " ++ e)

/-- A row of the `admin_credentials` table (database.py DDL). -/
structure AdminRow where
  id : String
  name : String
  email : String
  password : String
  created_at : Nat
  updated_at : Nat
deriving Repr, DecidableEq

/-- The `AdminData` entity of adminmodels.py (no password hash). -/
structure AdminData where
  id : String
  name : String
  email : String
  created_at : Nat
  updated_at : Nat
deriving Repr, DecidableEq

/-- `CreateAdminRequest` of adminmodels.py. -/
structure CreateAdminRequest where
  name : String
  email : String
  password : String
deriving Repr

/-- The pydantic validation of `CreateAdminRequest`: the password must be at
least 6 characters (email format checking is EmailStr, an external
primitive, and is not modelled). -/
def CreateAdminRequest.validate (r : CreateAdminRequest) : Except String Unit :=
  if r.password.length < 6 then
    .error "Password must be at least 6 characters long"
  else .ok ()

/-- `AdminService.create_admin(name, email, password)`: duplicate-email
check, then the INSERT of the bcrypt hash.  The hash primitive is an
external collaborator, passed in as a function. -/
def create_admin_service (hash : String → String) (db : List AdminRow)
    (name email password : String) (newId : String) (now : Nat) :
    List AdminRow × Except String AdminData :=
  match db.find? (fun a => a.email == email) with
  | some _ => (db, .error "Email already exists")
  | none =>
    let row : AdminRow :=
      { id := newId, name := name, email := email, password := hash password
        created_at := now, updated_at := now }
    (db ++ [row],
      .ok { id := newId, name := name, email := email, created_at := now, updated_at := now })

/-- The outcome of decoding a presented bearer token, the boundary to the
external jwt primitive: `invalid` when jwt.decode raises InvalidTokenError
(bad signature, expired, malformed), otherwise the admin_id the payload
carries. -/
inductive Credential where
  | invalid
  | valid (admin_id : String)
deriving Repr, DecidableEq

/-- The POST /admin/ handler `create_admin` of adminroutes.py.  When admins
exist it requires and verifies a bearer token (401 on absence or on
InvalidTokenError).  It then runs
`AdminService.create_admin(request.email, request.password)`: two positional
arguments against the service signature `(name, email, password)` of three
required parameters, so Python raises TypeError before the service body
runs, and the generic `except Exception` branch converts it to a 500
HTTPException — on every path that reaches the call. -/
def create_admin_route (db : List AdminRow) (req : CreateAdminRequest)
    (cred : Option Credential) : List AdminRow × HttpResult AdminData :=
  let admin_count := db.length
  if 0 < admin_count then
    match cred with
    | none => (db, .err 401 "Authentication required - admins already exist")
    | some .invalid => (db, .err 401 "Invalid or expired token")
    | some (.valid _) =>
      (db, .err 500
        "Failed to create admin: create_admin missing 1 required positional argument: password")
  else
    (db, .err 500
      "Failed to create admin: create_admin missing 1 required positional argument: password")

/-- The scheme-type exclusivity violations on a creation request that the
creation pipeline (pydantic model validator plus service checks) tests for:
installment fields on a single_payment scheme; missing or non-positive
installment fields, or a balance_payment_days, on an installment scheme. -/
def CreateInvestmentSchemeRequest.violatesTypeRules
    (r : CreateInvestmentSchemeRequest) : Bool :=
  match r.scheme_type with
  | .single_payment => r.total_installments.isSome || r.monthly_installment_amount.isSome
  | .installment =>
    r.total_installments.isNone || decide (r.total_installments.getD 0 ≤ 0) ||
    r.monthly_installment_amount.isNone || decide (r.monthly_installment_amount.getD 0 ≤ 0) ||
    r.balance_payment_days.isSome

/-! Concrete fixtures used by the closed counterexample and witness
statements below. -/

/-- Fixture: a minimal active commercial project row. -/
def baseRow : ProjectRow :=
  { id := "p1", title := "Skyline Towers", location := "Hyderabad"
    description := none, long_description := none, website_url := none
    status := .available, base_price := 100, property_type := .commercial
    has_rental_income := false, pricing_details := none
    total_units := 10, available_units := 7, sold_units := 2, reserved_units := 1
    rera_number := none, building_permission := none
    quick_info := none, gallery_images := none, key_highlights := none
    features := none, investment_highlights := none, amenities := none
    created_at := 1, updated_at := 1, is_active := true }

/-- Fixture: an active plot project without rental income. -/
def plotProject : ProjectRow :=
  { baseRow with id := "pl1", title := "Green Plots", property_type := .plot }

/-- Fixture: a partial update that only switches rental income on. -/
def setRentalTrue : UpdateProjectRequest := { has_rental_income := some true }

/-- Fixture: the row the buggy update produces from `plotProject`. -/
def plotProjectAfter : ProjectRow :=
  { plotProject with has_rental_income := true, updated_at := 5 }

/-- Fixture: the spec scenario creation request (units 10 = 7 + 2 + 1). -/
def scenarioCreateReq : CreateProjectRequest :=
  { title := "Skyline Towers", location := "Hyderabad", base_price := 100
    property_type := .commercial, total_units := 10, available_units := 7
    sold_units := 2, reserved_units := 1 }

/-- Fixture: the spec scenario update setting available_units to 5 alone. -/
def scenarioUpdateReq : UpdateProjectRequest := { available_units := some 5 }

/-- Fixture: a creation request carrying a non-empty JSON amenities value. -/
def jsonCreateReq : CreateProjectRequest :=
  { scenarioCreateReq with
    amenities := some (Json.arr [Json.str "pool"])
    quick_info := some (Json.obj [("floors", Json.num 12)]) }

/-- Fixture: the row `jsonCreateReq` inserts under id p1 at time 3. -/
def jsonCreatedRow : ProjectRow :=
  { baseRow with
    amenities := some (Json.arr [Json.str "pool"])
    quick_info := some (Json.obj [("floors", Json.num 12)])
    created_at := 3, updated_at := 3 }

/-- Fixture: a creation request whose amenities value is the empty JSON list
(present, but Python-falsy). -/
def emptyJsonCreateReq : CreateProjectRequest :=
  { scenarioCreateReq with amenities := some (Json.arr []) }

/-- Fixture: the row `emptyJsonCreateReq` inserts: the empty list was
coerced to NULL. -/
def emptyJsonCreatedRow : ProjectRow :=
  { baseRow with created_at := 3, updated_at := 3 }

/-- Fixture: an active project with rental income, owning the scheme fixtures. -/
def rentalProject : ProjectRow :=
  { baseRow with id := "p2", has_rental_income := true, created_at := 2, updated_at := 2 }

/-- Fixture: a minimal single_payment scheme row owned by `rentalProject`. -/
def baseScheme : SchemeRow :=
  { id := "s1", project_id := "p2", scheme_type := .single_payment
    scheme_name := "Gold", area_sqft := 100, booking_advance := none
    balance_payment_days := some 30, total_installments := none
    monthly_installment_amount := none, rental_start_month := none
    start_date := 10, end_date := none, is_active := true
    created_at := 1, updated_at := 1 }

/-- Fixture: a single_payment creation request with no balance_payment_days. -/
def spNoBalanceReq : CreateInvestmentSchemeRequest :=
  { project_id := "p2", scheme_type := .single_payment, scheme_name := "Gold"
    area_sqft := 100, start_date := 10 }

/-- Fixture: the row `spNoBalanceReq` inserts under id s1 at time 4. -/
def spNoBalanceRow : SchemeRow :=
  { baseScheme with balance_payment_days := none, created_at := 4, updated_at := 4 }

/-- Fixture: a stored single_payment scheme under id s2. -/
def spStoredScheme : SchemeRow := { baseScheme with id := "s2", created_at := 2, updated_at := 2 }

/-- Fixture: a partial scheme update that adds installments only. -/
def addInstallmentsReq : UpdateInvestmentSchemeRequest := { total_installments := some 5 }

/-- Fixture: the row the unvalidated update produces from `spStoredScheme`:
a single_payment scheme now carrying both balance_payment_days and
total_installments. -/
def spStoredSchemeAfter : SchemeRow :=
  { spStoredScheme with total_installments := some 5, updated_at := 9 }

/-- Fixture: a single_payment creation request with booking_advance 0. -/
def zeroAdvanceReq : CreateInvestmentSchemeRequest :=
  { spNoBalanceReq with booking_advance := some 0 }

/-- Fixture: the row `zeroAdvanceReq` inserts under id s3 at time 4. -/
def zeroAdvanceRow : SchemeRow :=
  { spNoBalanceRow with id := "s3", booking_advance := some 0 }

/-- Fixture: an inactive (soft-deleted) project under id p9. -/
def inactiveProject : ProjectRow :=
  { baseRow with id := "p9", is_active := false, created_at := 9, updated_at := 9 }

/-- Fixture: a scheme whose owning project p9 has been soft-deleted. -/
def orphanScheme : SchemeRow :=
  { baseScheme with id := "s9", project_id := "p9", created_at := 3, updated_at := 3 }

/-- Fixture: the all-absent project update request. -/
def emptyProjectUpdate : UpdateProjectRequest := {}

/-- Fixture: the all-absent scheme update request. -/
def emptySchemeUpdate : UpdateInvestmentSchemeRequest := {}

/-- Fixture: active scheme created at time 1 (listing order fixtures). -/
def schemeA : SchemeRow := baseScheme

/-- Fixture: active scheme created at time 2. -/
def schemeB : SchemeRow := { baseScheme with id := "sB", created_at := 2, updated_at := 2 }

/-- Fixture: inactive scheme created at time 3. -/
def schemeC : SchemeRow :=
  { baseScheme with id := "sC", is_active := false, created_at := 3, updated_at := 3 }

/-- Fixture: a valid first-admin creation body. -/
def firstAdminReq : CreateAdminRequest :=
  { name := "Alice", email := "alice@example.com", password := "secret1" }

/-- Fixture: an existing admin row. -/
def existingAdmin : AdminRow :=
  { id := "a1", name := "Root", email := "root@example.com", password := "hash"
    created_at := 0, updated_at := 0 }

/-! ## Shared lemmas -/

/-- Replacing every row the predicate selects leaves the replacement as the
first (and only) row `find?` sees, provided the predicate held somewhere and
holds of the replacement. -/
theorem find?_map_ite {α : Type} (p : α → Bool) (nr : α) (hnr : p nr = true) :
    ∀ db : List α, (db.find? p).isSome →
      (db.map (fun r => if p r then nr else r)).find? p = some nr := by
  intro db
  induction db with
  | nil => intro h; simp at h
  | cons x xs ih =>
    intro h
    by_cases hx : p x = true
    · have hmap : (if p x = true then nr else x) = nr := if_pos hx
      rw [List.map_cons, hmap, List.find?_cons_of_pos _ hnr]
    · have hmap : (if p x = true then nr else x) = x := if_neg hx
      rw [List.map_cons, hmap, List.find?_cons_of_neg _ hx]
      apply ih
      rwa [List.find?_cons_of_neg _ hx] at h

/-- `insertByGt` adds exactly one element. -/
theorem length_insertByGt {α : Type} (key : α → Nat) (x : α) :
    ∀ l : List α, (insertByGt key x l).length = l.length + 1 := by
  intro l
  induction l with
  | nil => rfl
  | cons y ys ih =>
    by_cases h : key y < key x
    · simp [insertByGt, h]
    · simp [insertByGt, h, ih]

/-- `sortByKeyDesc` keeps the length of its input. -/
theorem length_sortByKeyDesc {α : Type} (key : α → Nat) :
    ∀ l : List α, (sortByKeyDesc key l).length = l.length := by
  intro l
  induction l with
  | nil => rfl
  | cons x xs ih => simp [sortByKeyDesc, length_insertByGt, ih]

/-- Concatenating the `limit`-sized chunks numbered 0..k-1 of a list of
length at most `k * limit` reassembles the list. -/
theorem flatMap_chunks {α : Type} (limit : Nat) :
    ∀ (k : Nat) (L : List α), L.length ≤ k * limit →
      (List.range k).flatMap (fun i => (L.drop (i * limit)).take limit) = L := by
  intro k
  induction k with
  | zero =>
    intro L hL
    simp only [Nat.zero_mul, Nat.le_zero, List.length_eq_zero] at hL
    simp [hL]
  | succ n ih =>
    intro L hL
    rw [List.range_succ_eq_map]
    simp only [List.flatMap_cons, List.flatMap_map]
    have htail : (List.range n).flatMap
        (fun i => ((L.drop limit).drop (i * limit)).take limit) = L.drop limit := by
      refine ih (L.drop limit) ?_
      have := hL
      simp only [List.length_drop]
      rw [Nat.succ_mul] at this
      omega
    have hstep : ∀ i : Nat,
        (L.drop (Nat.succ i * limit)).take limit =
          ((L.drop limit).drop (i * limit)).take limit := by
      intro i
      rw [List.drop_drop]
      congr 2
      rw [Nat.succ_mul, Nat.add_comm]
    calc (L.drop (0 * limit)).take limit ++
          (List.range n).flatMap (fun i => (L.drop (Nat.succ i * limit)).take limit)
        = L.take limit ++ (List.range n).flatMap
            (fun i => ((L.drop limit).drop (i * limit)).take limit) := by
          rw [Nat.zero_mul, List.drop_zero]
          congr 1
          exact List.flatMap_congr (fun i _ => hstep i)
      _ = L.take limit ++ L.drop limit := by rw [htail]
      _ = L := List.take_append_drop limit L

/-- A list of length N fits inside `(N + limit - 1) / limit` chunks of size
`limit` when `limit` is positive: the ceiling-division bound. -/
theorem le_ceil_chunks (N limit : Nat) (hl : 0 < limit) :
    N ≤ ((N + limit - 1) / limit) * limit := by
  rcases Nat.eq_zero_or_pos N with h0 | hpos
  · subst h0; exact Nat.zero_le _
  · have hrw : N + limit - 1 = (N - 1) + limit := by omega
    rw [hrw, Nat.add_div_right _ hl]
    have hdm := Nat.div_add_mod (N - 1) limit
    have hml : (N - 1) % limit < limit := Nat.mod_lt _ hl
    have hc : limit * ((N - 1) / limit) = (N - 1) / limit * limit := Nat.mul_comm _ _
    have hd : ((N - 1) / limit + 1) * limit = (N - 1) / limit * limit + limit := by ring
    omega

/-- An all-absent project update request has every field equal to none. -/
theorem UpdateProjectRequest.project_fields_none (r : UpdateProjectRequest)
    (h : r.hasUpdates = false) :
    r.title = none ∧ r.location = none ∧ r.description = none ∧
    r.long_description = none ∧ r.website_url = none ∧ r.status = none ∧
    r.base_price = none ∧ r.property_type = none ∧ r.has_rental_income = none ∧
    r.pricing_details = none ∧ r.quick_info = none ∧ r.gallery_images = none ∧
    r.key_highlights = none ∧ r.features = none ∧ r.investment_highlights = none ∧
    r.amenities = none ∧ r.rera_number = none ∧ r.building_permission = none ∧
    r.total_units = none ∧ r.available_units = none ∧ r.sold_units = none ∧
    r.reserved_units = none ∧ r.is_active = none := by
  simp only [UpdateProjectRequest.hasUpdates] at h
  simp at h
  tauto

/-- An all-absent scheme update request has every field equal to none. -/
theorem UpdateInvestmentSchemeRequest.scheme_fields_none (r : UpdateInvestmentSchemeRequest)
    (h : r.hasUpdates = false) :
    r.scheme_name = none ∧ r.area_sqft = none ∧ r.booking_advance = none ∧
    r.balance_payment_days = none ∧ r.total_installments = none ∧
    r.monthly_installment_amount = none ∧ r.rental_start_month = none ∧
    r.start_date = none ∧ r.end_date = none ∧ r.is_active = none := by
  simp only [UpdateInvestmentSchemeRequest.hasUpdates] at h
  simp at h
  tauto

/-! ## Claim theorems -/

set_option maxHeartbeats 1000000 in
/-- A scheme creation request the pydantic validators accept has a positive
balance_payment_days whenever one is present. -/
theorem create_validate_balance_pos (r : CreateInvestmentSchemeRequest) (u : Unit)
    (h : r.validate = Except.ok u) : ∀ b, r.balance_payment_days = some b → 0 < b := by
  intro b hb
  delta CreateInvestmentSchemeRequest.validate at h
  by_cases g1 : r.area_sqft ≤ 0
  · rw [if_pos g1] at h; exact Except.noConfusion h
  · rw [if_neg g1] at h
    by_cases g2 : r.booking_advance.getD 0 < 0
    · rw [if_pos g2] at h; exact Except.noConfusion h
    · rw [if_neg g2] at h
      by_cases g3 : r.balance_payment_days.getD 1 ≤ 0
      · rw [if_pos g3] at h; exact Except.noConfusion h
      · rw [hb] at g3
        simp only [Option.getD_some] at g3
        omega

/-- C1 (counterexample): the scheme-type field exclusivity is not what the
claim states.  First, a single_payment scheme is created with no
balance_payment_days at all (the claim requires it present and positive).
Second, a partial update adding total_installments := 5 to a stored
single_payment scheme is accepted and persisted, so after the update the
scheme carries both balance_payment_days and total_installments (the claim
requires the exclusivity to be enforced at update). -/
theorem C1_scheme_type_exclusivity_cex :
    (InvestmentSchemeService.create_scheme_endpoint [rentalProject] [] spNoBalanceReq "s1" 4 =
        ([spNoBalanceRow], Except.ok (row_to_scheme_data spNoBalanceRow))
      ∧ spNoBalanceRow.scheme_type = SchemeType.single_payment
      ∧ spNoBalanceRow.balance_payment_days = none)
    ∧ (InvestmentSchemeService.update_scheme_endpoint [rentalProject] [spStoredScheme] "s2"
          addInstallmentsReq 9 =
        ([spStoredSchemeAfter], UpdateResult.ok (row_to_scheme_data spStoredSchemeAfter))
      ∧ spStoredSchemeAfter.scheme_type = SchemeType.single_payment
      ∧ spStoredSchemeAfter.total_installments = some 5
      ∧ spStoredSchemeAfter.balance_payment_days = some 30) :=
  ⟨⟨rfl, rfl, rfl⟩, ⟨rfl, rfl, rfl, rfl⟩⟩

/-- C1 (amended): what the code actually enforces.  At creation (pydantic
validation plus service checks), a successfully created single_payment
scheme has no installment fields and its balance_payment_days, when
present, is positive — but balance_payment_days may be absent; a
successfully created installment scheme has positive total_installments
and monthly_installment_amount and no balance_payment_days; any creation
request violating these type rules is rejected with the scheme store
unchanged.  At update, no scheme-type exclusivity is validated at all:
whenever the scheme exists, its owning project is live and active, no
rental_start_month is supplied and the per-field pydantic validators pass,
the update succeeds regardless of which type-specific fields it writes. -/
theorem C1_scheme_type_field_rules
    (projects : List ProjectRow) (schemes : List SchemeRow)
    (creq : CreateInvestmentSchemeRequest) (ureq : UpdateInvestmentSchemeRequest)
    (sid newId : String) (now : Nat) :
    (∀ schemes2 d, InvestmentSchemeService.create_scheme_endpoint projects schemes creq
        newId now = (schemes2, Except.ok d) →
      ∃ row, schemes2 = schemes ++ [row]
        ∧ (row.scheme_type = SchemeType.single_payment →
            row.total_installments = none ∧ row.monthly_installment_amount = none ∧
            ∀ b, row.balance_payment_days = some b → 0 < b)
        ∧ (row.scheme_type = SchemeType.installment →
            (∃ n, row.total_installments = some n ∧ 0 < n) ∧
            (∃ q, row.monthly_installment_amount = some q ∧ 0 < q) ∧
            row.balance_payment_days = none))
    ∧ (creq.violatesTypeRules = true →
      ∃ e, InvestmentSchemeService.create_scheme_endpoint projects schemes creq newId now =
        (schemes, Except.error e))
    ∧ (∀ scur p, schemes.find? (fun s => s.id == sid) = some scur →
      findLiveProject projects scur.project_id = some p →
      ureq.rental_start_month = none →
      ureq.validate = Except.ok () →
      ∃ schemes2 d, InvestmentSchemeService.update_scheme_endpoint projects schemes sid ureq
        now = (schemes2, UpdateResult.ok d)) := by
  refine ⟨?_, ?_, ?_⟩
  · -- a successful creation satisfies the type rules
    intro schemes2 d h
    simp only [InvestmentSchemeService.create_scheme_endpoint] at h
    split at h
    · exact Except.noConfusion (congrArg Prod.snd h)
    · rename_i u hv
      simp only [InvestmentSchemeService.create_scheme] at h
      split at h
      · exact Except.noConfusion (congrArg Prod.snd h)
      · next p hfp =>
        split_ifs at h with h1 h2 h3 h4 h5 h6
        · exact Except.noConfusion (congrArg Prod.snd h)
        · exact Except.noConfusion (congrArg Prod.snd h)
        · exact Except.noConfusion (congrArg Prod.snd h)
        · exact Except.noConfusion (congrArg Prod.snd h)
        · exact Except.noConfusion (congrArg Prod.snd h)
        · exact Except.noConfusion (congrArg Prod.snd h)
        · refine ⟨_, (congrArg Prod.fst h).symm, ?_, ?_⟩
          · intro hsp
            refine ⟨?_, ?_, create_validate_balance_pos creq u hv⟩
            · exact Option.not_isSome_iff_eq_none.mp (fun hti => h2 ⟨hsp, hti⟩)
            · exact Option.not_isSome_iff_eq_none.mp (fun hmi => h3 ⟨hsp, hmi⟩)
          · intro hin
            have hti : ¬(creq.total_installments.isNone = true ∨
                creq.total_installments.getD 0 ≤ 0) := fun hc => h4 ⟨hin, hc⟩
            have hmi : ¬(creq.monthly_installment_amount.isNone = true ∨
                creq.monthly_installment_amount.getD 0 ≤ 0) := fun hc => h5 ⟨hin, hc⟩
            push_neg at hti hmi
            refine ⟨?_, ?_, ?_⟩
            · cases hc : creq.total_installments with
              | none => exact absurd (by simp [hc]) hti.1
              | some n =>
                refine ⟨n, rfl, ?_⟩
                have := hti.2
                rw [hc] at this
                simp only [Option.getD_some] at this
                omega
            · cases hc : creq.monthly_installment_amount with
              | none => exact absurd (by simp [hc]) hmi.1
              | some q =>
                refine ⟨q, rfl, ?_⟩
                have := hmi.2
                rw [hc] at this
                simpa using this
            · exact Option.not_isSome_iff_eq_none.mp (fun hbd => h6 ⟨hin, hbd⟩)
  · -- a type-rule violation is rejected with the store unchanged
    intro hviol
    simp only [InvestmentSchemeService.create_scheme_endpoint]
    cases hv : creq.validate with
    | error e => exact ⟨e, rfl⟩
    | ok u =>
      cases hfp : findLiveProject projects creq.project_id with
      | none =>
        simp only [InvestmentSchemeService.create_scheme, hfp]
        exact ⟨_, rfl⟩
      | some p =>
        simp only [InvestmentSchemeService.create_scheme, hfp]
        by_cases hc1 : creq.rental_start_month.isSome = true ∧ p.has_rental_income = false
        · rw [if_pos hc1]; exact ⟨_, rfl⟩
        · rw [if_neg hc1]
          cases hst : creq.scheme_type with
          | single_payment =>
            have hv2 : creq.total_installments.isSome = true ∨
                creq.monthly_installment_amount.isSome = true := by
              have hx := hviol
              simp only [CreateInvestmentSchemeRequest.violatesTypeRules, hst,
                Bool.or_eq_true] at hx
              exact hx
            rcases hv2 with hti | hmi
            · rw [if_pos ⟨rfl, hti⟩]; exact ⟨_, rfl⟩
            · by_cases hc2 : creq.total_installments.isSome = true
              · rw [if_pos ⟨rfl, hc2⟩]; exact ⟨_, rfl⟩
              · rw [if_neg (fun hc => hc2 hc.2), if_pos ⟨rfl, hmi⟩]; exact ⟨_, rfl⟩
          | installment =>
            have hx := hviol
            simp only [CreateInvestmentSchemeRequest.violatesTypeRules, hst,
              Bool.or_eq_true, decide_eq_true_eq] at hx
            rw [if_neg (fun hc => SchemeType.noConfusion hc.1),
              if_neg (fun hc => SchemeType.noConfusion hc.1)]
            by_cases hd4 : creq.total_installments.isNone = true ∨
                creq.total_installments.getD 0 ≤ 0
            · rw [if_pos ⟨rfl, hd4⟩]; exact ⟨_, rfl⟩
            · rw [if_neg (fun hc => hd4 hc.2)]
              by_cases hd5 : creq.monthly_installment_amount.isNone = true ∨
                  creq.monthly_installment_amount.getD 0 ≤ 0
              · rw [if_pos ⟨rfl, hd5⟩]; exact ⟨_, rfl⟩
              · rw [if_neg (fun hc => hd5 hc.2)]
                have hbd : creq.balance_payment_days.isSome = true := by
                  rcases hx with ((((a | b) | c) | e) | f)
                  · exact absurd (Or.inl a) hd4
                  · exact absurd (Or.inr b) hd4
                  · exact absurd (Or.inl c) hd5
                  · exact absurd (Or.inr e) hd5
                  · exact f
                rw [if_pos ⟨rfl, hbd⟩]
                exact ⟨_, rfl⟩
  · -- updates perform no scheme-type exclusivity validation
    intro scur p hfs hfp hrm hval
    simp only [InvestmentSchemeService.update_scheme_endpoint, hval]
    simp only [InvestmentSchemeService.update_scheme, hfs, hfp]
    rw [if_neg (by simp [hrm])]
    by_cases hu : ureq.hasUpdates = true
    · rw [if_neg (by simp [hu])]
      exact ⟨_, _, rfl⟩
    · rw [if_pos (by simp [Bool.not_eq_true] at hu; simp [hu])]
      exact ⟨_, _, rfl⟩

/-- C2: the plot/land rental-income exclusion is not re-validated against
the persisted project state on update.  A stored active plot project with
has_rental_income = false receives a partial update setting
has_rental_income to true; the update-path check reads property_type
from the request (absent), so the write is accepted and the stored row ends
with property_type = plot and has_rental_income = true, violating the
invariant the claim states is enforced. -/
theorem C2_plot_rental_income_persisted :
    plotProject.property_type = PropertyType.plot
    ∧ plotProject.has_rental_income = false
    ∧ plotProject.is_active = true
    ∧ ProjectService.update_project_endpoint [plotProject] "pl1" setRentalTrue 5 =
        ([plotProjectAfter], UpdateResult.ok (row_to_project_data plotProjectAfter))
    ∧ plotProjectAfter.property_type = PropertyType.plot
    ∧ plotProjectAfter.has_rental_income = true :=
  ⟨rfl, rfl, rfl, rfl, rfl, rfl⟩

/-- C3: the unit-inventory equation is enforced on every Project write.  A
creation whose request violates total = available + sold + reserved is
rejected with the database unchanged, and a successful creation appends a
row satisfying the equation.  A partial update is rejected (database
unchanged) whenever some unit field is present and the effective values —
request value where present, else the persisted value — violate the
equation; and any successful update leaves the stored row satisfying the
equation, assuming it held before. -/
theorem C3_unit_inventory_equation
    (db : List ProjectRow) (pid newId : String) (now : Nat)
    (creq : CreateProjectRequest) (ureq : UpdateProjectRequest) (cur : ProjectRow)
    (hfind : db.find? (fun r => r.id == pid) = some cur)
    (hinv : cur.total_units = cur.available_units + cur.sold_units + cur.reserved_units) :
    (creq.total_units ≠ creq.available_units + creq.sold_units + creq.reserved_units →
      ∃ e, ProjectService.create_project_endpoint db creq newId now = (db, Except.error e))
    ∧ (∀ db2 d, ProjectService.create_project_endpoint db creq newId now = (db2, Except.ok d) →
      ∃ r, db2 = db ++ [r] ∧
        r.total_units = r.available_units + r.sold_units + r.reserved_units)
    ∧ ((ureq.total_units.isSome ∨ ureq.available_units.isSome ∨ ureq.sold_units.isSome ∨
          ureq.reserved_units.isSome) →
      ureq.total_units.getD cur.total_units ≠
        ureq.available_units.getD cur.available_units + ureq.sold_units.getD cur.sold_units +
          ureq.reserved_units.getD cur.reserved_units →
      ∃ e, ProjectService.update_project_endpoint db pid ureq now = (db, UpdateResult.err e))
    ∧ (∀ db2 d, ProjectService.update_project_endpoint db pid ureq now =
          (db2, UpdateResult.ok d) →
      ∀ r2, db2.find? (fun r => r.id == pid) = some r2 →
        r2.total_units = r2.available_units + r2.sold_units + r2.reserved_units) := by
  refine ⟨?_, ?_, ?_, ?_⟩
  · -- violating creation is rejected with storage unchanged
    intro hne
    simp only [ProjectService.create_project_endpoint]
    cases hv : creq.validate with
    | error e => exact ⟨e, rfl⟩
    | ok u =>
      simp only [ProjectService.create_project, if_pos hne]
      exact ⟨_, rfl⟩
  · -- successful creation appends a row satisfying the equation
    intro db2 d h
    simp only [ProjectService.create_project_endpoint] at h
    split at h
    · exact Except.noConfusion (congrArg Prod.snd h)
    · simp only [ProjectService.create_project] at h
      split_ifs at h with h1 h2
      · exact Except.noConfusion (congrArg Prod.snd h)
      · exact Except.noConfusion (congrArg Prod.snd h)
      · refine ⟨_, (congrArg Prod.fst h).symm, ?_⟩
        simpa using not_not.mp h1
  · -- a violating effective update is rejected with storage unchanged
    intro hsome hne
    simp only [ProjectService.update_project_endpoint]
    cases hv : ureq.validate with
    | error e => exact ⟨e, rfl⟩
    | ok u =>
      simp only [ProjectService.update_project, hfind]
      by_cases hr : ureq.has_rental_income.isSome ∧
          (ureq.property_type = some .plot ∨ ureq.property_type = some .land) ∧
          ureq.has_rental_income = some true
      · rw [if_pos hr]
        exact ⟨_, rfl⟩
      · rw [if_neg hr, if_pos ⟨hsome, hne⟩]
        exact ⟨_, rfl⟩
  · -- a successful update leaves the stored row satisfying the equation
    intro db2 d h r2 hr2
    simp only [ProjectService.update_project_endpoint] at h
    split at h
    · exact UpdateResult.noConfusion (congrArg Prod.snd h)
    · simp only [ProjectService.update_project, hfind] at h
      split_ifs at h with h1 h2 h3
      · exact UpdateResult.noConfusion (congrArg Prod.snd h)
      · exact UpdateResult.noConfusion (congrArg Prod.snd h)
      · -- no field present: the row is untouched
        have hdb : db = db2 := congrArg Prod.fst h
        rw [← hdb, hfind] at hr2
        cases hr2
        exact hinv
      · -- the dynamic UPDATE applied the effective values
        have hdb : db.map (fun r =>
            if r.id == pid then applyProjectUpdate cur ureq now else r) = db2 :=
          congrArg Prod.fst h
        have hp : (fun r : ProjectRow => r.id == pid) (applyProjectUpdate cur ureq now) =
            true := by
          have := List.find?_some hfind
          simpa [applyProjectUpdate] using this
        have hfound := find?_map_ite (fun r : ProjectRow => r.id == pid)
          (applyProjectUpdate cur ureq now) hp db (by rw [hfind]; rfl)
        rw [hdb] at hfound
        rw [hfound] at hr2
        cases hr2
        -- the skipped unit check means the effective values satisfy the equation
        rcases not_and_or.mp h2 with hnone | heq
        · have h4 : ureq.total_units = none ∧ ureq.available_units = none ∧
              ureq.sold_units = none ∧ ureq.reserved_units = none := by
            push_neg at hnone
            obtain ⟨a, b, c, d⟩ := hnone
            exact ⟨by simpa using a, by simpa using b, by simpa using c, by simpa using d⟩
          obtain ⟨ha, hb, hc, hd⟩ := h4
          simp [applyProjectUpdate, ha, hb, hc, hd, hinv]
        · have heq' := not_not.mp heq
          simpa [applyProjectUpdate] using heq'

/-- C3 witness: the spec scenario.  A project stores units 10 = 7 + 2 + 1;
the partial update setting available_units := 5 alone has effective sum
5 + 2 + 1 = 8 ≠ 10 and is rejected with the stored row unchanged. -/
theorem C3_unit_inventory_witness :
    ∃ e, ProjectService.update_project_endpoint [baseRow] "p1" scenarioUpdateReq 5 =
      ([baseRow], UpdateResult.err e) :=
  (C3_unit_inventory_equation [baseRow] "p1" "p2" 5 scenarioCreateReq scenarioUpdateReq
    baseRow rfl (by decide)).2.2.1 (Or.inr (Or.inl (by decide))) (by decide)

/-- C4: creating the first admin can never succeed.  The no-admin branch of
POST /admin/ reaches the service call, which supplies two positional
arguments to the three-parameter service signature and therefore raises
TypeError, mapped to 500 — even for a fully valid body with no token when
zero admins exist.  The second half of the claim does hold: with one admin
stored and no token the route returns 401 and stores nothing. -/
theorem C4_first_admin_creation_returns_500 :
    CreateAdminRequest.validate firstAdminReq = Except.ok ()
    ∧ create_admin_route [] firstAdminReq none =
        ([], HttpResult.err 500
          "Failed to create admin: create_admin missing 1 required positional argument: password")
    ∧ create_admin_route [existingAdmin] firstAdminReq none =
        ([existingAdmin], HttpResult.err 401 "Authentication required - admins already exist") :=
  ⟨rfl, rfl, rfl⟩

/-- C5: GET /investment-schemes/ always errors.  The service layer does
return the filtered schemes — default-restricted to is_active = true, with
an explicit is_active filter honoured — but the route then constructs its
declared response model passing only success, message and data, so pydantic
raises ValidationError for the seven missing required fields and the
handler returns 500 on every request. -/
theorem C5_scheme_listing_route_500 :
    get_all_investment_schemes_route [schemeA, schemeB, schemeC] none none none 20 0 =
      HttpResult.err 500
        "Failed to retrieve investment schemes: validation errors for InvestmentSchemeListResponse: field required"
    ∧ InvestmentSchemeService.get_all_schemes [schemeA, schemeB, schemeC] none none none 20 0 =
        [row_to_scheme_data schemeB, row_to_scheme_data schemeA]
    ∧ InvestmentSchemeService.get_all_schemes [schemeA, schemeB, schemeC] none none
        (some false) 20 0 = [row_to_scheme_data schemeC]
    ∧ schemeA.is_active = true ∧ schemeB.is_active = true ∧ schemeC.is_active = false :=
  ⟨rfl, rfl, rfl, rfl, rfl, rfl⟩

/-- C6: rental_start_month is gated on the owning project state fetched
live at write time.  For both creation and partial update, a write that
supplies rental_start_month succeeds only if the project row fetched during
that write (active, by id) has has_rental_income = true; when that live row
has has_rental_income = false the write raises a validation error and the
scheme store is unchanged — independently of the scheme's own scheme_type. -/
theorem C6_rental_start_month_live_gate
    (projects : List ProjectRow) (schemes : List SchemeRow)
    (creq : CreateInvestmentSchemeRequest) (ureq : UpdateInvestmentSchemeRequest)
    (sid newId : String) (now : Nat) :
    (creq.rental_start_month.isSome →
      ∀ schemes2 d, InvestmentSchemeService.create_scheme_endpoint projects schemes creq
          newId now = (schemes2, Except.ok d) →
        ∃ p, findLiveProject projects creq.project_id = some p ∧ p.has_rental_income = true)
    ∧ (creq.rental_start_month.isSome →
      ∀ p, findLiveProject projects creq.project_id = some p → p.has_rental_income = false →
        ∃ e, InvestmentSchemeService.create_scheme_endpoint projects schemes creq newId now =
          (schemes, Except.error e))
    ∧ (ureq.rental_start_month.isSome →
      ∀ schemes2 d, InvestmentSchemeService.update_scheme_endpoint projects schemes sid ureq
          now = (schemes2, UpdateResult.ok d) →
        ∃ cur p, schemes.find? (fun s => s.id == sid) = some cur ∧
          findLiveProject projects cur.project_id = some p ∧ p.has_rental_income = true)
    ∧ (ureq.rental_start_month.isSome →
      ∀ cur p, schemes.find? (fun s => s.id == sid) = some cur →
        findLiveProject projects cur.project_id = some p → p.has_rental_income = false →
        ∃ e, InvestmentSchemeService.update_scheme_endpoint projects schemes sid ureq now =
          (schemes, UpdateResult.err e)) := by
  refine ⟨?_, ?_, ?_, ?_⟩
  · intro hmon schemes2 d h
    simp only [InvestmentSchemeService.create_scheme_endpoint] at h
    split at h
    · exact Except.noConfusion (congrArg Prod.snd h)
    · simp only [InvestmentSchemeService.create_scheme] at h
      split at h
      · exact Except.noConfusion (congrArg Prod.snd h)
      · next p hfp =>
        split_ifs at h with h1 h2 h3 h4 h5 h6
        · exact Except.noConfusion (congrArg Prod.snd h)
        · exact Except.noConfusion (congrArg Prod.snd h)
        · exact Except.noConfusion (congrArg Prod.snd h)
        · exact Except.noConfusion (congrArg Prod.snd h)
        · exact Except.noConfusion (congrArg Prod.snd h)
        · exact Except.noConfusion (congrArg Prod.snd h)
        · refine ⟨p, hfp, ?_⟩
          rcases not_and_or.mp h1 with hno | hri
          · exact absurd hmon hno
          · simpa using hri
  · intro hmon p hfp hri
    simp only [InvestmentSchemeService.create_scheme_endpoint]
    cases hv : creq.validate with
    | error e => exact ⟨e, rfl⟩
    | ok u =>
      simp only [InvestmentSchemeService.create_scheme, hfp]
      rw [if_pos (show creq.rental_start_month.isSome = true ∧
        p.has_rental_income = false from ⟨hmon, hri⟩)]
      exact ⟨_, rfl⟩
  · intro hmon schemes2 d h
    simp only [InvestmentSchemeService.update_scheme_endpoint] at h
    split at h
    · exact UpdateResult.noConfusion (congrArg Prod.snd h)
    · simp only [InvestmentSchemeService.update_scheme] at h
      split at h
      · exact UpdateResult.noConfusion (congrArg Prod.snd h)
      · next cur hfs =>
        split at h
        · exact UpdateResult.noConfusion (congrArg Prod.snd h)
        · next p hfp =>
          split_ifs at h with h1 h2
          · exact UpdateResult.noConfusion (congrArg Prod.snd h)
          · refine ⟨cur, p, hfs, hfp, ?_⟩
            rcases not_and_or.mp h1 with hno | hri
            · exact absurd hmon hno
            · simpa using hri
          · refine ⟨cur, p, hfs, hfp, ?_⟩
            rcases not_and_or.mp h1 with hno | hri
            · exact absurd hmon hno
            · simpa using hri
  · intro hmon cur p hfs hfp hri
    simp only [InvestmentSchemeService.update_scheme_endpoint]
    cases hv : ureq.validate with
    | error e => exact ⟨e, rfl⟩
    | ok u =>
      simp only [InvestmentSchemeService.update_scheme, hfs, hfp]
      rw [if_pos (show ureq.rental_start_month.isSome = true ∧
        p.has_rental_income = false from ⟨hmon, hri⟩)]
      exact ⟨_, rfl⟩

/-- C7 (counterexample): the JSON round trip fails on a present-but-empty
value.  A project created with amenities = [] (the empty JSON list) stores
NULL for the column (`json.dumps(x) if x else None` is falsy on []), so
reading the project back yields amenities = None, not a value structurally
equal to the supplied []. -/
theorem C7_empty_json_cex :
    emptyJsonCreateReq.amenities = some (Json.arr [])
    ∧ ProjectService.create_project_endpoint [] emptyJsonCreateReq "p1" 3 =
        ([emptyJsonCreatedRow], Except.ok (row_to_project_data emptyJsonCreatedRow))
    ∧ ProjectService.get_project_by_id [emptyJsonCreatedRow] "p1" =
        some (row_to_project_data emptyJsonCreatedRow)
    ∧ (row_to_project_data emptyJsonCreatedRow).amenities = none :=
  ⟨rfl, rfl, rfl, rfl⟩

/-- C7 (amended): the JSON round trip holds for every Python-truthy value.
For a project created under a fresh id, reading it back returns exactly the
created entity, and each JSON-valued field that was supplied with a
non-empty (truthy) value reads back structurally equal to the supplied
value.  (By the counterexample, present-but-empty values are coerced to
NULL and read back as None, so truthiness is exactly the boundary.) -/
theorem C7_json_round_trip
    (db : List ProjectRow) (req : CreateProjectRequest) (newId : String) (now : Nat)
    (db2 : List ProjectRow) (d : ProjectData)
    (hfresh : ∀ r ∈ db, (r.id == newId) = false)
    (hok : ProjectService.create_project_endpoint db req newId now = (db2, Except.ok d)) :
    ProjectService.get_project_by_id db2 newId = some d
    ∧ (∀ j, req.pricing_details = some j → j.truthy = true → d.pricing_details = some j)
    ∧ (∀ j, req.quick_info = some j → j.truthy = true → d.quick_info = some j)
    ∧ (∀ j, req.gallery_images = some j → j.truthy = true → d.gallery_images = some j)
    ∧ (∀ j, req.key_highlights = some j → j.truthy = true → d.key_highlights = some j)
    ∧ (∀ j, req.features = some j → j.truthy = true → d.features = some j)
    ∧ (∀ j, req.investment_highlights = some j → j.truthy = true →
        d.investment_highlights = some j)
    ∧ (∀ j, req.amenities = some j → j.truthy = true → d.amenities = some j) := by
  simp only [ProjectService.create_project_endpoint] at hok
  split at hok
  · exact Except.noConfusion (congrArg Prod.snd hok)
  · simp only [ProjectService.create_project] at hok
    split_ifs at hok with h1 h2
    · exact Except.noConfusion (congrArg Prod.snd hok)
    · exact Except.noConfusion (congrArg Prod.snd hok)
    · have hdb2 := congrArg Prod.fst hok
      have hd := congrArg Prod.snd hok
      simp only at hdb2 hd
      have hd' := Except.ok.inj hd
      refine ⟨?_, ?_, ?_, ?_, ?_, ?_, ?_, ?_⟩
      · -- the created row is the one the id lookup returns
        simp only [ProjectService.get_project_by_id, ← hdb2]
        rw [List.find?_append]
        have hnone : db.find? (fun r => r.id == newId && r.is_active) = none := by
          apply List.find?_eq_none.mpr
          intro x hx
          simp [hfresh x hx]
        rw [hnone]
        simp [← hd']
      all_goals
        intro j hj htr
        rw [← hd']
        simp [row_to_project_data, jsonColumnParam, hj, htr]

/-- C7 witness: a project created with amenities = ["pool"] and
quick_info = (floors: 12) reads back as the same entity with the same
amenities value. -/
theorem C7_json_round_trip_witness :
    ProjectService.get_project_by_id [jsonCreatedRow] "p1" =
      some (row_to_project_data jsonCreatedRow)
    ∧ (row_to_project_data jsonCreatedRow).amenities = some (Json.arr [Json.str "pool"]) :=
  ⟨(C7_json_round_trip [] jsonCreateReq "p1" 3 [jsonCreatedRow]
      (row_to_project_data jsonCreatedRow) (by simp) rfl).1,
    (C7_json_round_trip [] jsonCreateReq "p1" 3 [jsonCreatedRow]
      (row_to_project_data jsonCreatedRow) (by simp) rfl).2.2.2.2.2.2.2
      (Json.arr [Json.str "pool"]) rfl rfl⟩

/-- C8: the pagination envelope of the project listing is correct.  For any
stored state, positive page and limit, and any filter combination that
passes the min/max price guard, the handler returns an envelope with
total_pages equal to the ceiling division of the filtered total by the
limit, is_previous iff page > 1, is_next iff page < total_pages, the page
slice starting at offset (page - 1) * limit of the filtered rows in the
stable creation-time-descending order, and the pages 1..total_pages
concatenate to exactly the filtered rows (hence no duplicates and no
omissions). -/
theorem C8_pagination_envelope
    (db : List ProjectRow) (page limit : Nat) (pt sf : Option String) (minp maxp : Option ℚ)
    (hpage : 1 ≤ page) (hlimit : 0 < limit)
    (hprice : priceConflict minp maxp = false) :
    PaginationSpec db page limit pt sf minp maxp := by
  unfold PaginationSpec
  simp only [list_projects_route, hprice, Bool.false_eq_true, if_false,
    ProjectService.list_projects]
  refine ⟨_, rfl, ?_, ?_, rfl, rfl, ?_, ?_⟩
  · exact (length_sortByKeyDesc _ _).symm
  · exact (Nat.ceilDiv_eq_add_pred_div _ _).symm
  · rfl
  · have hlen : (db.filter (projectMatches pt sf minp maxp)).length =
        (projectQueryRows db pt sf minp maxp).length :=
      (length_sortByKeyDesc _ _).symm
    show (List.range (((db.filter (projectMatches pt sf minp maxp)).length + limit - 1) /
        limit)).flatMap
        (fun i => ((projectQueryRows db pt sf minp maxp).drop (i * limit)).take limit) =
      projectQueryRows db pt sf minp maxp
    rw [hlen]
    exact flatMap_chunks limit _ _ (le_ceil_chunks _ limit hlimit)

/-- C8 witness: three stored rows (one inactive), page 2 and limit 2 under
no filters satisfy the pagination contract. -/
theorem C8_pagination_envelope_witness :
    PaginationSpec [baseRow, rentalProject, inactiveProject] 2 2 none none none none :=
  C8_pagination_envelope [baseRow, rentalProject, inactiveProject] 2 2 none none none none
    (by decide) (by decide) rfl

/-- C9 (counterexample): an empty partial update of an existing
InvestmentScheme is not always a successful no-op.  When the owning project
has been soft-deleted (is_active = false), `update_scheme` fails its live
owning-project lookup and raises a ValueError even though the request
contains no field at all. -/
theorem C9_empty_update_error_cex :
    emptySchemeUpdate.hasUpdates = false
    ∧ orphanScheme.project_id = inactiveProject.id
    ∧ inactiveProject.is_active = false
    ∧ InvestmentSchemeService.update_scheme_endpoint [inactiveProject] [orphanScheme] "s9"
        emptySchemeUpdate 9 =
      ([orphanScheme], UpdateResult.err "Associated project not found or inactive") :=
  ⟨rfl, rfl, rfl, rfl⟩

/-- C9 (amended): an all-absent partial update is a successful no-op that
returns the current entity and leaves the store — every field including
updated_at — unchanged, for every existing Project unconditionally, and
for every existing InvestmentScheme whose owning project is still present
and active (by the counterexample, a scheme whose owning project is
inactive fails even the empty update). -/
theorem C9_empty_update_noop
    (pdb : List ProjectRow) (sdb : List SchemeRow) (pid sid : String) (now : Nat)
    (cur : ProjectRow) (scur : SchemeRow) (p : ProjectRow)
    (preq : UpdateProjectRequest) (sreq : UpdateInvestmentSchemeRequest)
    (hp : pdb.find? (fun r => r.id == pid) = some cur)
    (hpnone : preq.hasUpdates = false)
    (hs : sdb.find? (fun s => s.id == sid) = some scur)
    (hlive : findLiveProject pdb scur.project_id = some p)
    (hsnone : sreq.hasUpdates = false) :
    ProjectService.update_project_endpoint pdb pid preq now =
      (pdb, UpdateResult.ok (row_to_project_data cur))
    ∧ InvestmentSchemeService.update_scheme_endpoint pdb sdb sid sreq now =
      (sdb, UpdateResult.ok (row_to_scheme_data scur)) := by
  obtain ⟨ht, hlo, hde, hld, hw, hst, hbp, hpt, hri, hpd, hqi, hgi, hkh, hfe, hih, ham,
    hrn, hbpm, htu, hau, hsu, hru, hia⟩ := UpdateProjectRequest.project_fields_none preq hpnone
  obtain ⟨gn, ga, gb, gbd, gti, gmi, grm, gsd, ged, gia⟩ :=
    UpdateInvestmentSchemeRequest.scheme_fields_none sreq hsnone
  have hval : preq.validate = Except.ok () := by
    simp [UpdateProjectRequest.validate, hbp, htu, hau, hsu, hru]
  have hsval : sreq.validate = Except.ok () := by
    simp [UpdateInvestmentSchemeRequest.validate, ga, gb, gbd, gti, gmi, grm, gsd, ged]
  constructor
  · simp only [ProjectService.update_project_endpoint, hval]
    simp only [ProjectService.update_project, hp]
    rw [if_neg (by simp [hri]), if_neg (by simp [htu, hau, hsu, hru]),
      if_pos (by simp [hpnone])]
  · simp only [InvestmentSchemeService.update_scheme_endpoint, hsval]
    simp only [InvestmentSchemeService.update_scheme, hs, hlive]
    rw [if_neg (by simp [grm]), if_pos (by simp [hsnone])]

/-- C9 witness: the empty update is a no-op on a concrete stored project
and on a concrete stored scheme whose owning project is live and active. -/
theorem C9_empty_update_noop_witness :
    ProjectService.update_project_endpoint [rentalProject] "p2" emptyProjectUpdate 7 =
      ([rentalProject], UpdateResult.ok (row_to_project_data rentalProject))
    ∧ InvestmentSchemeService.update_scheme_endpoint [rentalProject] [baseScheme] "s1"
        emptySchemeUpdate 7 =
      ([baseScheme], UpdateResult.ok (row_to_scheme_data baseScheme)) :=
  C9_empty_update_noop [rentalProject] [baseScheme] "p2" "s1" 7 rentalProject baseScheme
    rentalProject emptyProjectUpdate emptySchemeUpdate rfl rfl rfl rfl rfl

/-- C10: a stored booking_advance of 0 — a legal non-negative value the
creation validator accepts and the INSERT stores verbatim — is reported as
None by `_row_to_scheme_data`, the single row-to-entity mapping every read
and write path uses, because the mapping coerces Python-falsy numeric
column values to None; rows storing 0 and NULL map to the same entity, so
the mapping is not injective on booking_advance. -/
theorem C10_booking_advance_zero_reads_none (r : SchemeRow) :
    (row_to_scheme_data { r with booking_advance := some 0 }).booking_advance = none
    ∧ row_to_scheme_data { r with booking_advance := some 0 } =
        row_to_scheme_data { r with booking_advance := none }
    ∧ (InvestmentSchemeService.create_scheme_endpoint [rentalProject] [] zeroAdvanceReq "s3" 4 =
        ([zeroAdvanceRow], Except.ok (row_to_scheme_data zeroAdvanceRow))
      ∧ zeroAdvanceReq.booking_advance = some 0
      ∧ zeroAdvanceRow.booking_advance = some 0
      ∧ (row_to_scheme_data zeroAdvanceRow).booking_advance = none) :=
  ⟨rfl, rfl, rfl, rfl, rfl, rfl⟩

end DataDash
